import Mathlib

/-!
Verification of the spreadsheet-backed tenant record store of the
tenant-management application (`src/database`): data model, validators,
CRUD operations, history manager and occupancy queries, shallowly embedded
in Lean.  Dates are modelled as integers (the code stores ISO date strings
in cells and parses them back with `date.fromisoformat`, which is the
inverse of `isoformat`, so the string detour is identity on dates).  The
JSON member-list cells (`whatsapp_members`, `parking_authorizations`) are
modelled as typed lists for the same reason: `json.dumps`/`json.loads` of
the member dictionaries round-trips.  Python exception classes
(`ValidationError`, `NotFoundError`) become constructors of an error type;
the `details` dictionaries attached to exceptions are elided, only the
message strings are kept.
-/

namespace TenantMgmt

/-- A calendar date, identified with its ordinal (ISO strings round-trip). -/
abbrev Date := Int

/-- `OwnerInfo` model (models.py): owner contact for rented apartments. -/
structure OwnerInfo where
  first_name : String
  last_name : String
  phone : String
deriving DecidableEq, Repr

/-- `WhatsAppMember` / `ParkingAuthorization` models (models.py): flat
`{first_name, last_name, phone}` records. -/
structure Member where
  first_name : String
  last_name : String
  phone : String
deriving DecidableEq, Repr

/-- `PalGateMember` model (models.py). -/
structure PalGateMember where
  first_name : String
  last_name : String
  phone : String
  vehicle_plate : Option String
deriving DecidableEq, Repr

/-- `Tenant` pydantic model (models.py), field for field. -/
structure Tenant where
  building_number : Int
  apartment_number : Int
  first_name : String
  last_name : String
  phone : String
  storage_number : Option String
  parking_slot_1 : Option String
  parking_slot_2 : Option String
  is_owner : Bool
  owner_info : Option OwnerInfo
  whatsapp_members : List Member
  parking_authorizations : List Member
  palgate_members : List PalGateMember
  move_in_date : Date
  move_out_date : Option Date
  palgate_access_enabled : Bool
  whatsapp_group_enabled : Bool
deriving DecidableEq, Repr

/-- `TenantHistory` model (models.py); also the 11-column History sheet row
written by `_write_history_row`, which stores exactly these fields. -/
structure HistoryRow where
  building_number : Int
  apartment_number : Int
  first_name : String
  last_name : String
  phone : String
  move_in_date : Date
  move_out_date : Date
  was_owner : Bool
  owner_first_name : Option String
  owner_last_name : Option String
  owner_phone : Option String
deriving DecidableEq, Repr

/-- One 18-column row of the Tenants sheet, with the cell types produced by
`ExcelOperations._write_tenant_row`.  `none` models an empty cell; the
move-out cell (column 16) is empty exactly on active rows (`not
ws.cell(row, 16).value`: a stored ISO date string is never empty). -/
structure TenantRow where
  c_building : Int
  c_apartment : Int
  c_first : String
  c_last : String
  c_phone : String
  c_storage : Option String
  c_slot1 : Option String
  c_slot2 : Option String
  c_is_owner : Bool
  c_owner_first : Option String
  c_owner_last : Option String
  c_owner_phone : Option String
  c_whatsapp : List Member
  c_parking : List Member
  c_move_in : Date
  c_move_out : Option Date
  c_palgate : Bool
  c_whatsapp_group : Bool
deriving DecidableEq, Repr

/-- The backing workbook: the Tenants sheet and the History sheet, each as
the list of its data rows in sheet order (row 2 .. max_row; appending at
`max_row + 1` is appending at the end of the list). -/
structure Db where
  tenants : List TenantRow
  history : List HistoryRow
deriving DecidableEq, Repr

/-- Error taxonomy from exceptions/base.py, restricted to the classes the
modelled operations raise. -/
inductive DBErr where
  | validationError (msg : String)
  | notFoundError (msg : String)
deriving DecidableEq, Repr

/-- One entry of the `buildings` configuration list. -/
structure BuildingCfg where
  number : Int
  total_apartments : Int
deriving DecidableEq, Repr

/-- The configuration the validator and queries read via `get_config()`,
with the documented defaults. -/
structure Config where
  buildings : List BuildingCfg
  phone_min_length : Nat := 9
  phone_max_length : Nat := 15
  max_parking_authorizations : Nat := 4
deriving DecidableEq, Repr

/-! ### Stable sorting

Python's `sorted(l, key=k, reverse=True)` is a stable sort by `k`
descending: elements with equal keys keep their scan order.  We model it by
a left-to-right insertion sort: each later element is inserted after every
already-placed element whose key is `≥` its own. -/

/-- Insert `x` into a list sorted by `key` descending, after all elements
with a key `≥ key x` (stability) and before the first smaller one. -/
def insertDescBy (key : α → Int) (x : α) : List α → List α
  | [] => [x]
  | y :: ys => if key x ≤ key y then y :: insertDescBy key x ys else x :: y :: ys

/-- Stable sort by `key` descending (Python `sorted(..., reverse=True)`). -/
def sortDescBy (key : α → Int) (l : List α) : List α :=
  l.foldl (fun acc x => insertDescBy key x acc) []

/-! ### Validator (validators.py, class DataValidator) -/

/-- `DataValidator.get_valid_building_numbers`: the configured building
numbers, sorted ascending (Python `sorted`; modelled as the stable
descending sort on the negated key, which sorts ascending). -/
def get_valid_building_numbers (cfg : Config) : List Int :=
  sortDescBy (fun n => -n) (cfg.buildings.map (fun b => b.number))

/-- `DataValidator.get_apartment_count`: total apartments of the first
configured entry with this number, `0` when none matches. -/
def get_apartment_count (cfg : Config) (building_number : Int) : Int :=
  match cfg.buildings.find? (fun b => b.number == building_number) with
  | some b => b.total_apartments
  | none => 0

/-- `DataValidator.validate_building_number`. -/
def validate_building_number (cfg : Config) (building_number : Int) :
    Except DBErr Bool :=
  if building_number ∈ get_valid_building_numbers cfg then .ok true
  else .error (.validationError
    ("Invalid building number: " ++ toString building_number))

/-- `DataValidator.validate_apartment_number`: validates the building
first, then the `1 ≤ apt ≤ max_apartments` range. -/
def validate_apartment_number (cfg : Config) (building_number apartment_number : Int) :
    Except DBErr Bool := do
  let _ ← validate_building_number cfg building_number
  let max_apartments := get_apartment_count cfg building_number
  if apartment_number < 1 ∨ apartment_number > max_apartments then
    .error (.validationError
      ("Invalid apartment number: " ++ toString apartment_number))
  else .ok true

/-- `phone.replace("-", "").replace(" ", "").replace("+", "")`: removing
every occurrence of each character is filtering all three out. -/
def cleanPhone (phone : String) : String :=
  String.mk (phone.toList.filter (fun c => c ≠ '-' ∧ c ≠ ' ' ∧ c ≠ '+'))

/-- Python `str.isdigit` on the cleaned phone: true iff the string is
non-empty and all characters are digits (`"".isdigit()` is `False`). -/
def pyIsdigit (s : String) : Bool :=
  !s.toList.isEmpty && s.toList.all Char.isDigit

/-- `DataValidator.validate_phone_number`. -/
def validate_phone_number (cfg : Config) (phone : String) : Except DBErr Bool :=
  let cleaned := cleanPhone phone
  if ¬ pyIsdigit cleaned then
    .error (.validationError "Phone number must contain only digits")
  else
    let min_len := cfg.phone_min_length
    let max_len := cfg.phone_max_length
    if cleaned.length < min_len ∨ cleaned.length > max_len then
      .error (.validationError
        ("Phone must be " ++ toString min_len ++ "-" ++ toString max_len ++ " digits"))
    else .ok true

/-- `DataValidator.validate_dates`. -/
def validate_dates (move_in : Date) (move_out : Option Date) : Except DBErr Bool :=
  match move_out with
  | some d =>
      if d < move_in then
        .error (.validationError "Move-out date cannot be before move-in date")
      else .ok true
  | none => .ok true

/-! `validate_tenant_data` works on a raw dictionary.  The fields it reads
are modelled by `TenantData`; `Option` marks values that may be absent.
Python truthiness collapses an absent `owner_info`, `None` and the empty
dictionary into one falsy case, modelled by `none`; an owner field that is
absent, `None` or the empty string is likewise falsy. -/

/-- The `owner_info` sub-dictionary as read by `validate_tenant_data`. -/
structure OwnerData where
  first_name : Option String
  last_name : Option String
  phone : Option String
deriving DecidableEq, Repr

/-- Python truthiness of `d.get(key)` for a string-valued key. -/
def truthyStr : Option String → Bool
  | none => false
  | some s => s ≠ ""

/-- The tenant-data dictionary fields read by `validate_tenant_data`, with
the `data.get(...)` defaults applied (`building_number`/`apartment_number`
default `0`, `first_name`/`last_name` default `""`, `is_owner` default
`True`). -/
structure TenantData where
  building_number : Int
  apartment_number : Int
  phone : Option String
  first_name : String
  last_name : String
  is_owner : Bool
  owner_info : Option OwnerData
deriving DecidableEq, Repr

/-- The message carried by a raised error. -/
def DBErr.msg : DBErr → String
  | .validationError m => m
  | .notFoundError m => m

/-- Errors collected by the first `try` block of `validate_tenant_data`
(the building check). -/
def vtdBuildingErrors (cfg : Config) (d : TenantData) : List String :=
  match validate_building_number cfg d.building_number with
  | .ok _ => [] | .error e => [e.msg]

/-- Errors collected by the apartment-number `try` block. -/
def vtdApartmentErrors (cfg : Config) (d : TenantData) : List String :=
  match validate_apartment_number cfg d.building_number d.apartment_number with
  | .ok _ => [] | .error e => [e.msg]

/-- Errors collected by the phone `try` block (skipped when the phone is
absent or falsy). -/
def vtdPhoneErrors (cfg : Config) (d : TenantData) : List String :=
  match d.phone with
  | some p =>
      if p ≠ "" then
        match validate_phone_number cfg p with
        | .ok _ => [] | .error e => [e.msg]
      else []
  | none => []

/-- Python `str.strip()`: drop leading and trailing whitespace. -/
def pyStrip (s : String) : String :=
  String.mk (((s.toList.dropWhile Char.isWhitespace).reverse.dropWhile
    Char.isWhitespace).reverse)

/-- The required-first-name check (`data.get("first_name", "").strip()`). -/
def vtdFirstNameErrors (d : TenantData) : List String :=
  if pyStrip d.first_name == "" then ["First name is required"] else []

/-- The required-last-name check. -/
def vtdLastNameErrors (d : TenantData) : List String :=
  if pyStrip d.last_name == "" then ["Last name is required"] else []

/-- The owner-info-required-for-renters check: presence of the dictionary
and of the two owner names; the owner phone is never examined. -/
def vtdOwnerErrors (d : TenantData) : List String :=
  if d.is_owner then []
  else match d.owner_info with
    | none => ["Owner info required for renters"]
    | some o =>
        if ¬ truthyStr o.first_name then ["Owner first name required"]
        else if ¬ truthyStr o.last_name then ["Owner last name required"]
        else []

/-- `DataValidator.validate_tenant_data`: aggregate validation returning
`(is_valid, errors)` instead of raising, accumulating each block's errors
in order. -/
def validate_tenant_data (cfg : Config) (d : TenantData) : Bool × List String :=
  let errors := vtdBuildingErrors cfg d ++ vtdApartmentErrors cfg d
    ++ vtdPhoneErrors cfg d ++ vtdFirstNameErrors d ++ vtdLastNameErrors d
    ++ vtdOwnerErrors d
  (errors.length == 0, errors)

/-! ### Pydantic model acceptance (models.py)

Constructing a `Tenant` (or a nested model) runs pydantic's field
constraints and the two custom validators.  `tenantAccepted` is true
exactly when model construction succeeds. -/

/-- A pydantic `Field(..., min_length=1, max_length=100)` string. -/
def validName (s : String) : Bool := 1 ≤ s.length && s.length ≤ 100

/-- A pydantic `Field(..., min_length=9, max_length=20)` phone string:
only the length is constrained, not the characters. -/
def validPhoneField (s : String) : Bool := 9 ≤ s.length && s.length ≤ 20

/-- Field constraints of the `OwnerInfo` model. -/
def ownerInfoAccepted (o : OwnerInfo) : Bool :=
  validName o.first_name && validName o.last_name && validPhoneField o.phone

/-- Field constraints of the `WhatsAppMember` / `ParkingAuthorization`
models. -/
def memberAccepted (m : Member) : Bool :=
  validName m.first_name && validName m.last_name && validPhoneField m.phone

/-- Field constraints of the `PalGateMember` model. -/
def palGateMemberAccepted (m : PalGateMember) : Bool :=
  validName m.first_name && validName m.last_name && validPhoneField m.phone
    && (match m.vehicle_plate with | none => true | some p => p.length ≤ 20)

/-- `Tenant` model construction succeeds: pydantic field constraints on the
tenant's own fields and every nested model, the `validate_owner_info`
validator (renter must have `owner_info`), and the `validate_parking_limit`
validator (at most the configured maximum of parking authorizations). -/
def tenantAccepted (cfg : Config) (t : Tenant) : Bool :=
  validName t.first_name && validName t.last_name && validPhoneField t.phone
    && (match t.owner_info with | none => true | some o => ownerInfoAccepted o)
    && t.whatsapp_members.all memberAccepted
    && t.parking_authorizations.all memberAccepted
    && t.palgate_members.all palGateMemberAccepted
    && (t.is_owner || (t.owner_info).isSome)
    && t.parking_authorizations.length ≤ cfg.max_parking_authorizations

/-! ### Record store (excel_operations.py / excel_manager.py) -/

/-- The row-scan predicate shared by `create_tenant`, `update_tenant`,
`end_tenancy` and `get_tenant`: same building, same apartment, empty
move-out cell (active row). -/
def matchesActive (building apartment : Int) (r : TenantRow) : Bool :=
  r.c_building == building && r.c_apartment == apartment && r.c_move_out.isNone

/-- `ExcelOperations._write_tenant_row` as a row transformer: every column
is set from the tenant, except columns 10-12 (owner first/last/phone),
which are written only when `tenant.owner_info` is present and otherwise
keep the previous cell values. -/
def writeTenantRow (old : TenantRow) (t : Tenant) : TenantRow :=
  { c_building := t.building_number
    c_apartment := t.apartment_number
    c_first := t.first_name
    c_last := t.last_name
    c_phone := t.phone
    c_storage := t.storage_number
    c_slot1 := t.parking_slot_1
    c_slot2 := t.parking_slot_2
    c_is_owner := t.is_owner
    c_owner_first := match t.owner_info with
      | some o => some o.first_name | none => old.c_owner_first
    c_owner_last := match t.owner_info with
      | some o => some o.last_name | none => old.c_owner_last
    c_owner_phone := match t.owner_info with
      | some o => some o.phone | none => old.c_owner_phone
    c_whatsapp := t.whatsapp_members
    c_parking := t.parking_authorizations
    c_move_in := t.move_in_date
    c_move_out := t.move_out_date
    c_palgate := t.palgate_access_enabled
    c_whatsapp_group := t.whatsapp_group_enabled }

/-- The row appended by `create_tenant`: `_write_tenant_row` applied to a
fresh row whose cells are all empty, so absent `owner_info` leaves the
owner cells empty. -/
def freshRow : TenantRow :=
  { c_building := 0, c_apartment := 0, c_first := "", c_last := "",
    c_phone := "", c_storage := none, c_slot1 := none, c_slot2 := none,
    c_is_owner := false, c_owner_first := none, c_owner_last := none,
    c_owner_phone := none, c_whatsapp := [], c_parking := [],
    c_move_in := 0, c_move_out := none, c_palgate := false,
    c_whatsapp_group := false }

/-- The tenant-sheet row created for a new tenant. -/
def createRow (t : Tenant) : TenantRow := writeTenantRow freshRow t

/-- `ExcelManager._row_to_tenant`: parse a sheet row back into a `Tenant`.
`owner_info` is reconstructed only when the `is_owner` cell is falsy
(column 9), with empty-cell owner fields defaulted to `""`; the
`palgate_members` field has no column and always comes back as the model
default `[]`. -/
def rowToTenant (r : TenantRow) : Tenant :=
  { building_number := r.c_building
    apartment_number := r.c_apartment
    first_name := r.c_first
    last_name := r.c_last
    phone := r.c_phone
    storage_number := r.c_storage
    parking_slot_1 := r.c_slot1
    parking_slot_2 := r.c_slot2
    is_owner := r.c_is_owner
    owner_info :=
      if r.c_is_owner then none
      else some { first_name := (r.c_owner_first).getD "",
                  last_name := (r.c_owner_last).getD "",
                  phone := (r.c_owner_phone).getD "" }
    whatsapp_members := r.c_whatsapp
    parking_authorizations := r.c_parking
    palgate_members := []
    move_in_date := r.c_move_in
    move_out_date := r.c_move_out
    palgate_access_enabled := r.c_palgate
    whatsapp_group_enabled := r.c_whatsapp_group }

/-- `ExcelOperations.create_tenant`: validate building and apartment, scan
for an active row with the same identity (raising `ValidationError` on a
conflict), otherwise append the new row at `max_row + 1`. -/
def create_tenant (cfg : Config) (db : Db) (t : Tenant) :
    Except DBErr (Tenant × Db) := do
  let _ ← validate_building_number cfg t.building_number
  let _ ← validate_apartment_number cfg t.building_number t.apartment_number
  if db.tenants.any (matchesActive t.building_number t.apartment_number) then
    .error (.validationError "Active tenant already exists for this apartment")
  else
    .ok (t, { db with tenants := db.tenants ++ [createRow t] })

/-- The row-scan of `update_tenant`: rewrite the first active row matching
the tenant's identity in place, `none` when no row matches. -/
def updateRows (t : Tenant) : List TenantRow → Option (List TenantRow)
  | [] => none
  | r :: rs =>
      if matchesActive t.building_number t.apartment_number r then
        some (writeTenantRow r t :: rs)
      else (updateRows t rs).map (fun rest => r :: rest)

/-- `ExcelOperations.update_tenant`. -/
def update_tenant (db : Db) (t : Tenant) : Except DBErr (Tenant × Db) :=
  match updateRows t db.tenants with
  | some rows => .ok (t, { db with tenants := rows })
  | none => .error (.notFoundError "Tenant not found")

/-- `ExcelOperations._create_history_record`: the history snapshot built
from the tenant row's cells (columns 1-5, 15, 9, 10-12) and the move-out
date. -/
def historyFromRow (r : TenantRow) (move_out : Date) : HistoryRow :=
  { building_number := r.c_building
    apartment_number := r.c_apartment
    first_name := r.c_first
    last_name := r.c_last
    phone := r.c_phone
    move_in_date := r.c_move_in
    move_out_date := move_out
    was_owner := r.c_is_owner
    owner_first_name := r.c_owner_first
    owner_last_name := r.c_owner_last
    owner_phone := r.c_owner_phone }

/-- The row-scan of `end_tenancy`: stamp the move-out cell of the first
active row matching `(building, apartment)` and derive the history
snapshot from it; `none` when no row matches. -/
def endRows (building apartment : Int) (move_out : Date) :
    List TenantRow → Option (List TenantRow × HistoryRow)
  | [] => none
  | r :: rs =>
      if matchesActive building apartment r then
        let stamped := { r with c_move_out := some move_out }
        some (stamped :: rs, historyFromRow stamped move_out)
      else (endRows building apartment move_out rs).map
        (fun p => (r :: p.1, p.2))

/-- `ExcelOperations.end_tenancy`: stamp the live row, append the history
snapshot to the History sheet, save both in one write; `NotFoundError`
when no active tenant exists. -/
def end_tenancy (db : Db) (building apartment : Int) (move_out : Date) :
    Except DBErr (HistoryRow × Db) :=
  match endRows building apartment move_out db.tenants with
  | some (rows, h) => .ok (h, { tenants := rows, history := db.history ++ [h] })
  | none => .error (.notFoundError "Active tenant not found")

/-- `ExcelManager.get_tenant`: first active row matching the identity,
parsed; `None` (not an error) when no row matches. -/
def get_tenant (db : Db) (building apartment : Int) : Option Tenant :=
  (db.tenants.find? (matchesActive building apartment)).map rowToTenant

/-! ### Queries (queries.py, class TenantQueries) -/

/-- The row filter of `TenantQueries.get_all_tenants`: empty move-out cell
and, when a building filter is given, a matching building column. -/
def rowInFilter (building : Option Int) (r : TenantRow) : Bool :=
  r.c_move_out.isNone &&
    (match building with | none => true | some b => r.c_building == b)

/-- `TenantQueries.get_all_tenants`: scan the tenant sheet in row order,
keep active rows (optionally of one building), parse each. -/
def get_all_tenants (db : Db) (building : Option Int) : List Tenant :=
  (db.tenants.filter (rowInFilter building)).map rowToTenant

/-- `Building.get_building` (models.py): the first configured entry with
this number, `None` when missing. -/
def getBuilding (cfg : Config) (number : Int) : Option BuildingCfg :=
  cfg.buildings.find? (fun b => b.number == number)

/-- Floor of a rational, computed by floor division of numerator by
denominator (the denominator is positive, so `Int.fdiv` floors). -/
def ratFloor (q : ℚ) : ℤ := Int.fdiv q.num (q.den : ℤ)

/-- Python `round(x)` to an integer: round half to even. -/
def roundHalfEven (q : ℚ) : ℤ :=
  let f := ratFloor q
  let r := q - (f : ℚ)
  if r < 1 / 2 then f
  else if 1 / 2 < r then f + 1
  else if f % 2 = 0 then f else f + 1

/-- Python `round(x, 1)`: round to one decimal digit, half to even.  (The
code rounds a float; the float is the exact quotient up to representation,
which never moves any value arising here across a rounding boundary.) -/
def pyRound1 (q : ℚ) : ℚ := (roundHalfEven (q * 10) : ℚ) / 10

/-- The result dictionary of `TenantQueries.get_building_occupancy`:
either the statistics keys or the `{"error": ...}` dictionary naming the
missing building. -/
inductive OccResult where
  | stats (building total_apartments occupied vacant : Int) (occupancy_rate : ℚ)
  | buildingNotFound (building : Int)
deriving DecidableEq, Repr

/-- `TenantQueries.get_building_occupancy`: error dictionary when the
building is not configured; otherwise `occupied` counts the active tenants
of the building, `vacant = total - occupied` and `occupancy_rate =
round(occupied / total * 100, 1)` guarded by `total > 0`. -/
def get_building_occupancy (cfg : Config) (db : Db) (building : Int) : OccResult :=
  match getBuilding cfg building with
  | none => .buildingNotFound building
  | some info =>
      let occupied : Int := (get_all_tenants db (some building)).length
      let total := info.total_apartments
      .stats building total occupied (total - occupied)
        (if total > 0 then pyRound1 ((occupied : ℚ) / (total : ℚ) * 100) else 0)

/-- `get_building_occupancy` as a state-passing operation: the query calls
no save, so the workbook it returns is the one it was given. -/
def get_building_occupancy_op (cfg : Config) (building : Int) (db : Db) :
    OccResult × Db :=
  (get_building_occupancy cfg db building, db)

/-! ### History manager (history_manager.py) -/

/-- The row filter of `HistoryManager.get_apartment_history`. -/
def historyMatches (building apartment : Int) (h : HistoryRow) : Bool :=
  h.building_number == building && h.apartment_number == apartment

/-- `HistoryManager.get_apartment_history`: full scan of the History sheet
filtered by identity, sorted by `move_in_date` descending (Python
`sorted(..., reverse=True)`, a stable sort). -/
def get_apartment_history (db : Db) (building apartment : Int) : List HistoryRow :=
  sortDescBy (fun h => h.move_in_date) (db.history.filter (historyMatches building apartment))

/-! ### Lemmas about the stable sort -/

theorem insertDescBy_perm (key : α → Int) (x : α) (l : List α) :
    (insertDescBy key x l).Perm (x :: l) := by
  induction l with
  | nil => simp [insertDescBy]
  | cons y ys ih =>
      unfold insertDescBy
      by_cases h : key x ≤ key y
      · simp only [if_pos h]
        exact (ih.cons y).trans (List.Perm.swap x y ys)
      · simp only [if_neg h]
        exact List.Perm.refl _

theorem foldl_insertDescBy_perm (key : α → Int) (l : List α) :
    (l.foldl (fun acc x => insertDescBy key x acc) []).Perm l := by
  have main : ∀ (l acc : List α),
      (l.foldl (fun acc x => insertDescBy key x acc) acc).Perm (acc ++ l) := by
    intro l
    induction l with
    | nil => intro acc; simp
    | cons x xs ih =>
        intro acc
        have h1 := ih (insertDescBy key x acc)
        have h2 : (insertDescBy key x acc ++ xs).Perm (acc ++ x :: xs) :=
          ((insertDescBy_perm key x acc).append_right xs).trans List.perm_middle.symm
        simpa using h1.trans h2
  simpa using main l []

theorem sortDescBy_perm (key : α → Int) (l : List α) :
    (sortDescBy key l).Perm l := by
  simpa [sortDescBy] using foldl_insertDescBy_perm key l

theorem mem_sortDescBy (key : α → Int) (l : List α) (a : α) :
    a ∈ sortDescBy key l ↔ a ∈ l :=
  (sortDescBy_perm key l).mem_iff

theorem insertDescBy_pairwise (key : α → Int) (x : α) (l : List α)
    (hl : l.Pairwise (fun u v => key v ≤ key u)) :
    (insertDescBy key x l).Pairwise (fun u v => key v ≤ key u) := by
  induction l with
  | nil => simp [insertDescBy]
  | cons y ys ih =>
      rcases List.pairwise_cons.mp hl with ⟨hy, hys⟩
      unfold insertDescBy
      by_cases h : key x ≤ key y
      · simp only [if_pos h]
        refine List.pairwise_cons.mpr ⟨?_, ih hys⟩
        intro z hz
        have hz' := (insertDescBy_perm key x ys).mem_iff.mp hz
        rcases List.mem_cons.mp hz' with rfl | hz'
        · exact h
        · exact hy z hz'
      · simp only [if_neg h]
        refine List.pairwise_cons.mpr ⟨?_, hl⟩
        intro z hz
        rcases List.mem_cons.mp hz with rfl | hz
        · exact le_of_not_le h
        · exact le_trans (hy z hz) (le_of_not_le h)

theorem insertDescBy_filter (key : α → Int) (x : α) (l : List α) (k : Int)
    (hl : l.Pairwise (fun u v => key v ≤ key u)) :
    (insertDescBy key x l).filter (fun a => key a == k) =
      if key x == k then l.filter (fun a => key a == k) ++ [x]
      else l.filter (fun a => key a == k) := by
  induction l with
  | nil =>
      by_cases h : key x == k <;> simp [insertDescBy, List.filter, h]
  | cons y ys ih =>
      rcases List.pairwise_cons.mp hl with ⟨hy, hys⟩
      unfold insertDescBy
      by_cases h : key x ≤ key y
      · simp only [if_pos h]
        rw [List.filter_cons, List.filter_cons, ih hys]
        by_cases hxk : key x == k <;> by_cases hyk : key y == k <;>
          simp [hxk, hyk]
      · simp only [if_neg h]
        by_cases hxk : key x == k
        · have hxk' : key x = k := by simpa using hxk
          have hempty : (y :: ys).filter (fun a => key a == k) = [] := by
            rw [List.filter_eq_nil_iff]
            intro z hz
            have hzy : key z ≤ key y := by
              rcases List.mem_cons.mp hz with rfl | hz'
              · exact le_refl _
              · exact hy z hz'
            simp only [beq_iff_eq]
            omega
          simp [List.filter_cons, hxk, hempty]
        · simp [List.filter_cons, hxk]

theorem sortDescBy_sorted_and_stable (key : α → Int) (l : List α) :
    (sortDescBy key l).Pairwise (fun u v => key v ≤ key u) ∧
      ∀ k : Int, (sortDescBy key l).filter (fun a => key a == k) =
        l.filter (fun a => key a == k) := by
  have main : ∀ (l acc : List α),
      acc.Pairwise (fun u v => key v ≤ key u) →
      (l.foldl (fun acc x => insertDescBy key x acc) acc).Pairwise
          (fun u v => key v ≤ key u) ∧
        ∀ k : Int,
          (l.foldl (fun acc x => insertDescBy key x acc) acc).filter
              (fun a => key a == k) =
            acc.filter (fun a => key a == k) ++ l.filter (fun a => key a == k) := by
    intro l
    induction l with
    | nil => intro acc hacc; simpa using hacc
    | cons x xs ih =>
        intro acc hacc
        have hacc' := insertDescBy_pairwise key x acc hacc
        rcases ih (insertDescBy key x acc) hacc' with ⟨hs, hf⟩
        refine ⟨by simpa using hs, ?_⟩
        intro k
        have hx := insertDescBy_filter key x acc k hacc
        simp only [List.foldl_cons] at *
        rw [hf k, hx, List.filter_cons]
        by_cases hxk : key x == k
        · simp [hxk]
        · simp [hxk]
  rcases main l [] (List.Pairwise.nil) with ⟨hs, hf⟩
  refine ⟨by simpa [sortDescBy] using hs, ?_⟩
  intro k
  simpa [sortDescBy] using hf k

/-! ### Small scan helpers -/

theorem find?_append_of_all_false (p : α → Bool) (l1 l2 : List α)
    (h : ∀ x ∈ l1, p x = false) : (l1 ++ l2).find? p = l2.find? p := by
  induction l1 with
  | nil => simp
  | cons x xs ih =>
      have hx : p x = false := h x (List.mem_cons_self x xs)
      simp only [List.cons_append, List.find?_cons, hx]
      exact ih (fun y hy => h y (List.mem_cons_of_mem x hy))

theorem find?_eq_none_of_all_false (p : α → Bool) (l : List α)
    (h : ∀ x ∈ l, p x = false) : l.find? p = none := by
  have := find?_append_of_all_false p l [] h
  simpa using this

theorem mem_get_valid_building_numbers (cfg : Config) (b : Int) :
    b ∈ get_valid_building_numbers cfg ↔
      b ∈ cfg.buildings.map (fun c => c.number) := by
  unfold get_valid_building_numbers
  exact mem_sortDescBy _ _ b

/-! ### Demonstration configuration and data (for concrete witnesses) -/

/-- A demonstration configuration: building 11 with 17 apartments (the
spec's scenario building) and building 12 with 20; validation thresholds
at their defaults. -/
def cfgDemo : Config := { buildings := [⟨11, 17⟩, ⟨12, 20⟩] }

/-- An empty, freshly created database. -/
def dbEmpty : Db := { tenants := [], history := [] }

/-- Jane Smith, owner at (11, 1) — the spec's scenario tenant. -/
def tJane : Tenant :=
  { building_number := 11, apartment_number := 1, first_name := "Jane",
    last_name := "Smith", phone := "0509876543", storage_number := none,
    parking_slot_1 := none, parking_slot_2 := none, is_owner := true,
    owner_info := none, whatsapp_members := [], parking_authorizations := [],
    palgate_members := [], move_in_date := 20450, move_out_date := none,
    palgate_access_enabled := false, whatsapp_group_enabled := false }

/-! ### Claim C5: phone validation -/

/-- C5: `validate_phone_number` first removes every `-`, ` ` and `+`, then
fails exactly when the remaining string is not all digits (Python
`isdigit`, false on the empty string) or its length lies outside the
configured `[min_len, max_len]`; a non-digit remainder gives the
digits-only error, a digit remainder of bad length gives the length error;
and the three concrete examples behave as stated under the default
configuration. -/
theorem validate_phone_number_spec (cfg : Config) (phone : String) :
    (validate_phone_number cfg phone = .ok true ↔
      (pyIsdigit (cleanPhone phone) = true ∧
        cfg.phone_min_length ≤ (cleanPhone phone).length ∧
        (cleanPhone phone).length ≤ cfg.phone_max_length)) ∧
    (pyIsdigit (cleanPhone phone) = false →
      validate_phone_number cfg phone =
        .error (.validationError "Phone number must contain only digits")) ∧
    (pyIsdigit (cleanPhone phone) = true →
      ((cleanPhone phone).length < cfg.phone_min_length ∨
        cfg.phone_max_length < (cleanPhone phone).length) →
      validate_phone_number cfg phone =
        .error (.validationError ("Phone must be " ++ toString cfg.phone_min_length
          ++ "-" ++ toString cfg.phone_max_length ++ " digits"))) ∧
    validate_phone_number cfgDemo "0501234567" = .ok true ∧
    validate_phone_number cfgDemo "123" =
      .error (.validationError "Phone must be 9-15 digits") ∧
    validate_phone_number cfgDemo "050-ABC-1234" =
      .error (.validationError "Phone number must contain only digits") := by
  refine ⟨?_, ?_, ?_, by rfl, by rfl, by rfl⟩
  · unfold validate_phone_number
    by_cases h1 : pyIsdigit (cleanPhone phone) = true
    · by_cases h2 : (cleanPhone phone).length < cfg.phone_min_length ∨
        cfg.phone_max_length < (cleanPhone phone).length
      · constructor
        · intro hok
          simp only [h1, not_true, if_neg, if_false] at hok
          rw [if_pos (by omega)] at hok
          exact absurd hok (by simp)
        · intro ⟨_, hmin, hmax⟩
          omega
      · simp only [h1, not_true, if_false]
        rw [if_neg (by omega)]
        simp only [true_and]
        constructor
        · intro _; omega
        · intro _; trivial
    · rw [if_pos h1]
      constructor
      · intro hok; exact absurd hok (by simp)
      · intro hcon; exact absurd hcon.1 h1
  · intro h
    unfold validate_phone_number
    rw [if_pos (by simp [h])]
  · intro h1 h2
    unfold validate_phone_number
    rw [if_neg (by simp [h1]), if_pos (by omega)]

/-- Closed instantiation of `validate_phone_number_spec`: the iff at the
valid example and the two error branches at the failing examples. -/
theorem validate_phone_number_spec_witness :
    validate_phone_number cfgDemo "0501234567" = .ok true ∧
    validate_phone_number cfgDemo "123" =
      .error (.validationError "Phone must be 9-15 digits") ∧
    validate_phone_number cfgDemo "050-ABC-1234" =
      .error (.validationError "Phone number must contain only digits") := by
  refine ⟨?_, ?_, ?_⟩
  · exact (validate_phone_number_spec cfgDemo "0501234567").1.mpr
      ⟨by rfl, by decide, by decide⟩
  · exact (validate_phone_number_spec cfgDemo "123").2.2.1 (by rfl) (by decide)
  · exact (validate_phone_number_spec cfgDemo "050-ABC-1234").2.1 (by rfl)

/-! ### Claim C6: apartment-number validation -/

/-- C6: for a building configured with `T` apartments,
`validate_apartment_number` succeeds iff `1 ≤ a ≤ T`, fails with the
invalid-apartment `ValidationError` exactly on `a < 1` or `a > T`, and
succeeds at the boundary `a = T` (whenever the building has at least one
apartment); the building is validated first, so an unconfigured building
fails with the invalid-building error for every apartment number. -/
theorem validate_apartment_number_spec (cfg : Config) (b a T : Int) :
    (cfg.buildings.find? (fun c => c.number == b) = some ⟨b, T⟩ →
      ((validate_apartment_number cfg b a = .ok true ↔ 1 ≤ a ∧ a ≤ T) ∧
       (a < 1 ∨ T < a → validate_apartment_number cfg b a =
          .error (.validationError ("Invalid apartment number: " ++ toString a))) ∧
       (1 ≤ T → validate_apartment_number cfg b T = .ok true))) ∧
    (getBuilding cfg b = none →
      validate_apartment_number cfg b a =
        .error (.validationError ("Invalid building number: " ++ toString b))) := by
  constructor
  · intro hfind
    have hmem : b ∈ cfg.buildings.map (fun c => c.number) := by
      refine List.mem_map.mpr ⟨⟨b, T⟩, List.mem_of_find?_eq_some hfind, rfl⟩
    have hbn : validate_building_number cfg b = .ok true := by
      unfold validate_building_number
      rw [if_pos ((mem_get_valid_building_numbers cfg b).mpr hmem)]
    have hcount : get_apartment_count cfg b = T := by
      unfold get_apartment_count
      rw [hfind]
    have hval : ∀ x : Int, validate_apartment_number cfg b x =
        if x < 1 ∨ x > T then
          .error (.validationError ("Invalid apartment number: " ++ toString x))
        else .ok true := by
      intro x
      unfold validate_apartment_number
      rw [hbn, hcount]
      rfl
    refine ⟨?_, ?_, ?_⟩
    · rw [hval a]
      by_cases h : a < 1 ∨ a > T
      · rw [if_pos h]
        constructor
        · intro hok; exact absurd hok (by simp)
        · intro hcon; omega
      · rw [if_neg h]
        constructor
        · intro _; omega
        · intro _; rfl
    · intro h
      rw [hval a, if_pos (by omega)]
    · intro hT
      rw [hval T, if_neg (by omega)]
  · intro hnone
    have hall : ∀ x ∈ cfg.buildings, ¬ x.number = b := by
      simpa [getBuilding] using hnone
    have hnotmem : b ∉ cfg.buildings.map (fun c => c.number) := by
      intro hcon
      rcases List.mem_map.mp hcon with ⟨c, hc, hcb⟩
      exact hall c hc hcb
    unfold validate_apartment_number validate_building_number
    rw [if_neg (by
      intro hcon
      exact hnotmem ((mem_get_valid_building_numbers cfg b).mp hcon))]
    rfl

/-- Closed instantiation of `validate_apartment_number_spec`: in the
demonstration configuration, apartment 17 of building 11 is the accepted
boundary, apartments 0 and 18 are rejected, and building 99 is rejected as
an invalid building. -/
theorem validate_apartment_number_spec_witness :
    validate_apartment_number cfgDemo 11 17 = .ok true ∧
    validate_apartment_number cfgDemo 11 0 =
      .error (.validationError "Invalid apartment number: 0") ∧
    validate_apartment_number cfgDemo 11 18 =
      .error (.validationError "Invalid apartment number: 18") ∧
    validate_apartment_number cfgDemo 99 5 =
      .error (.validationError "Invalid building number: 99") := by
  refine ⟨?_, ?_, ?_, ?_⟩
  · exact ((validate_apartment_number_spec cfgDemo 11 17 17).1 (by rfl)).2.2
      (by norm_num)
  · exact ((validate_apartment_number_spec cfgDemo 11 0 17).1 (by rfl)).2.1
      (by norm_num)
  · exact ((validate_apartment_number_spec cfgDemo 11 18 17).1 (by rfl)).2.1
      (by norm_num)
  · exact (validate_apartment_number_spec cfgDemo 99 5 0).2 (by rfl)

/-! ### Claim C4: occupancy statistics -/

/-- The active-tenant row predicate for one building (the `occupied`
count). -/
def activeInBuilding (b : Int) (r : TenantRow) : Bool :=
  r.c_move_out.isNone && r.c_building == b

/-- C4: for a building configured with `T` apartments,
`get_building_occupancy` reports `occupied` equal to the number of active
tenant rows of the building, `vacant = T - occupied` (so `occupied +
vacant = T`), `occupancy_rate = round(occupied / total * 100, 1)` when the
total is positive, and rate `0` when the total is `0`. -/
theorem get_building_occupancy_spec (cfg : Config) (db : Db) (b T : Int)
    (hb : getBuilding cfg b = some ⟨b, T⟩) :
    ∃ occ rate, get_building_occupancy cfg db b = .stats b T occ (T - occ) rate ∧
      occ = ((db.tenants.filter (activeInBuilding b)).length : Int) ∧
      occ + (T - occ) = T ∧
      (0 < T → rate = pyRound1 ((occ : ℚ) / (T : ℚ) * 100)) ∧
      (T = 0 → rate = 0) := by
  have hlen : (get_all_tenants db (some b)).length =
      (db.tenants.filter (activeInBuilding b)).length := by
    unfold get_all_tenants
    rw [List.length_map]
    rfl
  have h : get_building_occupancy cfg db b =
      .stats b T ((get_all_tenants db (some b)).length : Int)
        (T - ((get_all_tenants db (some b)).length : Int))
        (if T > 0 then
          pyRound1 ((((get_all_tenants db (some b)).length : Int) : ℚ) / (T : ℚ) * 100)
        else 0) := by
    unfold get_building_occupancy
    rw [hb]
  refine ⟨_, _, h, by rw [hlen], by ring, ?_, ?_⟩
  · intro hT
    rw [if_pos hT]
  · intro hT
    rw [if_neg (by omega)]

/-- Closed instantiation of `get_building_occupancy_spec` at the
demonstration data: one active tenant among 17 apartments gives occupancy
`1/17`, reported as the banker-rounded rate `5.9`. -/
theorem get_building_occupancy_spec_witness :
    (∃ occ rate,
      get_building_occupancy cfgDemo { tenants := [createRow tJane], history := [] } 11
        = .stats 11 17 occ (17 - occ) rate ∧
      occ = ((List.filter (activeInBuilding 11)
        ({ tenants := [createRow tJane], history := [] } : Db).tenants).length : Int) ∧
      occ + (17 - occ) = 17 ∧
      (0 < (17 : Int) → rate = pyRound1 ((occ : ℚ) / ((17 : Int) : ℚ) * 100)) ∧
      ((17 : Int) = 0 → rate = 0)) ∧
    (match get_building_occupancy cfgDemo
        { tenants := [createRow tJane], history := [] } 11 with
      | .stats bld total occ vac _ => bld = 11 ∧ total = 17 ∧ occ = 1 ∧ vac = 16
      | .buildingNotFound _ => False) := by
  refine ⟨get_building_occupancy_spec cfgDemo _ 11 17 (by rfl), ?_⟩
  exact ⟨rfl, rfl, rfl, rfl⟩

/-! ### Claim C10: occupancy query on an unconfigured building -/

/-- C10: for a building number outside the configured set,
`get_building_occupancy` raises nothing and produces the error dictionary
naming the building instead of occupancy statistics, and the operation
leaves the backing workbook exactly as it found it (the query never
saves). -/
theorem get_building_occupancy_not_configured (cfg : Config) (db : Db) (b : Int)
    (hb : getBuilding cfg b = none) :
    get_building_occupancy_op cfg b db = (OccResult.buildingNotFound b, db) ∧
    ∀ (bt T occ vac : Int) (rate : ℚ),
      get_building_occupancy cfg db b ≠ .stats bt T occ vac rate := by
  have h : get_building_occupancy cfg db b = .buildingNotFound b := by
    unfold get_building_occupancy
    rw [hb]
  refine ⟨by simp [get_building_occupancy_op, h], ?_⟩
  intro bt T occ vac rate hcon
  rw [h] at hcon
  exact OccResult.noConfusion hcon

/-- Closed instantiation of `get_building_occupancy_not_configured`:
building 99 is not configured, the query returns the error result and the
demonstration database unchanged. -/
theorem get_building_occupancy_not_configured_witness :
    get_building_occupancy_op cfgDemo 99 dbEmpty
      = (OccResult.buildingNotFound 99, dbEmpty) :=
  (get_building_occupancy_not_configured cfgDemo dbEmpty 99 (by rfl)).1

/-! ### Claim C8: apartment history ordering -/

/-- C8: `get_apartment_history` returns exactly the history rows matching
the `(building, apartment)` identity (a permutation of the identity
filter), sorted by `move_in_date` descending, and rows with equal
`move_in_date` keep their sheet scan order (filtering the output by any
fixed date gives the same subsequence as filtering the sheet). -/
theorem get_apartment_history_spec (db : Db) (b a : Int) :
    (get_apartment_history db b a).Perm
        (db.history.filter (historyMatches b a)) ∧
    (get_apartment_history db b a).Pairwise
        (fun h1 h2 => h2.move_in_date ≤ h1.move_in_date) ∧
    ∀ d : Date,
      (get_apartment_history db b a).filter (fun h => h.move_in_date == d) =
        (db.history.filter (historyMatches b a)).filter
          (fun h => h.move_in_date == d) := by
  refine ⟨sortDescBy_perm _ _, ?_, ?_⟩
  · exact (sortDescBy_sorted_and_stable (fun h => h.move_in_date)
      (db.history.filter (historyMatches b a))).1
  · exact (sortDescBy_sorted_and_stable (fun h => h.move_in_date)
      (db.history.filter (historyMatches b a))).2

/-- An old tenancy of apartment (11, 1), move-in day 100. -/
def hOld : HistoryRow :=
  { building_number := 11, apartment_number := 1, first_name := "Olga",
    last_name := "Older", phone := "0501111111", move_in_date := 100,
    move_out_date := 150, was_owner := true, owner_first_name := none,
    owner_last_name := none, owner_phone := none }

/-- A later tenancy of (11, 1), move-in day 200, earlier in the sheet than
its tie `hTie`. -/
def hNew : HistoryRow :=
  { building_number := 11, apartment_number := 1, first_name := "Nina",
    last_name := "Newer", phone := "0502222222", move_in_date := 200,
    move_out_date := 250, was_owner := false, owner_first_name := some "O",
    owner_last_name := some "W", owner_phone := some "0503333333" }

/-- A tenancy of (11, 1) with the same move-in day 200 as `hNew`, later in
the sheet. -/
def hTie : HistoryRow :=
  { building_number := 11, apartment_number := 1, first_name := "Tamar",
    last_name := "Tied", phone := "0504444444", move_in_date := 200,
    move_out_date := 260, was_owner := true, owner_first_name := none,
    owner_last_name := none, owner_phone := none }

/-- A history sheet holding, in scan order, `hOld`, `hNew`, `hTie` and one
row of another apartment. -/
def dbHist : Db :=
  { tenants := [],
    history := [hOld, hNew,
      { hOld with apartment_number := 2, first_name := "Other" }, hTie] }

/-- Closed instantiation of `get_apartment_history_spec` on `dbHist`: the
query returns the three matching rows most-recent-first with the tie in
scan order, and the permutation clause of the theorem instantiated
there. -/
theorem get_apartment_history_spec_witness :
    get_apartment_history dbHist 11 1 = [hNew, hTie, hOld] ∧
    (get_apartment_history dbHist 11 1).Perm
      (dbHist.history.filter (historyMatches 11 1)) := by
  exact ⟨by decide, (get_apartment_history_spec dbHist 11 1).1⟩

/-! ### Round-trip of a written row -/

/-- Parsing back a row written from `t` recovers `t`, provided `t` has no
PalGate members (there is no column for them, so they always read back
empty), an owner has no `owner_info` (the reader drops owner columns when
the `is_owner` cell is set), and a renter has one (as the model
requires). -/
theorem rowToTenant_writeTenantRow (old : TenantRow) (t : Tenant)
    (hp : t.palgate_members = [])
    (how : t.is_owner = true → t.owner_info = none)
    (hro : t.is_owner = false → (t.owner_info).isSome = true) :
    rowToTenant (writeTenantRow old t) = t := by
  obtain ⟨bn, an, fn, ln, ph, st, p1, p2, io, oi, wm, pa, pm, mi, mo, pe, we⟩ := t
  simp only at hp how hro
  subst hp
  cases io with
  | false =>
      have hsome := hro rfl
      match oi, hsome with
      | some o, _ =>
          obtain ⟨a, b, c⟩ := o
          simp [rowToTenant, writeTenantRow]
  | true =>
      have hnone := how rfl
      subst hnone
      simp [rowToTenant, writeTenantRow]

/-- A freshly created row is active exactly when the tenant's move-out
date is unset, and always carries the tenant's identity. -/
theorem matchesActive_createRow (t : Tenant) (hactive : t.move_out_date = none) :
    matchesActive t.building_number t.apartment_number (createRow t) = true := by
  simp [matchesActive, createRow, writeTenantRow, hactive]

/-- `create_tenant` success: when the building and apartment validate and
no active row with the same identity exists, exactly the new row is
appended at the end of the tenant sheet. -/
theorem create_tenant_ok (cfg : Config) (db : Db) (t : Tenant)
    (hbmem : t.building_number ∈ cfg.buildings.map (fun c => c.number))
    (ha1 : 1 ≤ t.apartment_number)
    (ha2 : t.apartment_number ≤ get_apartment_count cfg t.building_number)
    (hnoactive : ∀ r ∈ db.tenants,
      matchesActive t.building_number t.apartment_number r = false) :
    create_tenant cfg db t =
      .ok (t, { db with tenants := db.tenants ++ [createRow t] }) := by
  have hbn : validate_building_number cfg t.building_number = .ok true := by
    unfold validate_building_number
    rw [if_pos ((mem_get_valid_building_numbers cfg t.building_number).mpr hbmem)]
  have hvala : validate_apartment_number cfg t.building_number t.apartment_number
      = .ok true := by
    unfold validate_apartment_number
    rw [hbn]
    show (if t.apartment_number < 1 ∨
        t.apartment_number > get_apartment_count cfg t.building_number then _ else _)
      = _
    rw [if_neg (by omega)]
  have hany : db.tenants.any (matchesActive t.building_number t.apartment_number)
      = false := by
    rw [List.any_eq_false]
    intro r hr
    simp [hnoactive r hr]
  unfold create_tenant
  rw [hbn, hvala]
  show (if db.tenants.any (matchesActive t.building_number t.apartment_number) = true
    then _ else _) = _
  rw [hany]
  simp

/-! ### Claim C1: create / get round-trip -/

/-- C1 (amended): when the building is configured, the apartment number is
in range, no active tenant sits at the identity, and the record is a new
active one (`move_out_date` unset) with no PalGate members and
`owner_info` present exactly for renters, `create_tenant` succeeds and an
immediate `get_tenant` returns a record equal to the input.  (Without the
PalGate and owner-side conditions the round-trip fails: see the
counterexample.) -/
theorem create_then_get_roundtrip (cfg : Config) (db : Db) (t : Tenant)
    (hbmem : t.building_number ∈ cfg.buildings.map (fun c => c.number))
    (ha1 : 1 ≤ t.apartment_number)
    (ha2 : t.apartment_number ≤ get_apartment_count cfg t.building_number)
    (hnoactive : ∀ r ∈ db.tenants,
      matchesActive t.building_number t.apartment_number r = false)
    (hactive : t.move_out_date = none)
    (hp : t.palgate_members = [])
    (how : t.is_owner = true → t.owner_info = none)
    (hro : t.is_owner = false → (t.owner_info).isSome = true) :
    create_tenant cfg db t =
      .ok (t, { db with tenants := db.tenants ++ [createRow t] }) ∧
    get_tenant { db with tenants := db.tenants ++ [createRow t] }
      t.building_number t.apartment_number = some t := by
  refine ⟨create_tenant_ok cfg db t hbmem ha1 ha2 hnoactive, ?_⟩
  unfold get_tenant
  rw [find?_append_of_all_false _ db.tenants _ hnoactive]
  simp only [List.find?_cons, matchesActive_createRow t hactive]
  rw [show Option.map rowToTenant (some (createRow t))
      = some (rowToTenant (createRow t)) from rfl]
  exact congrArg some (rowToTenant_writeTenantRow freshRow t hp how hro)

/-- A tenant with a PalGate member, otherwise like `tJane`. -/
def tPal : Tenant :=
  { tJane with palgate_members := [⟨"Guest", "One", "0501112223", none⟩] }

/-- C1 counterexample: the claim's round-trip including `palgate_members`
fails — the tenant sheet has no PalGate column, so after creating a tenant
with one PalGate member, `get_tenant` returns the record with
`palgate_members` empty, not equal to the input. -/
theorem create_then_get_roundtrip_counterexample :
    create_tenant cfgDemo dbEmpty tPal =
      .ok (tPal, { tenants := [createRow tPal], history := [] }) ∧
    get_tenant { tenants := [createRow tPal], history := [] } 11 1 =
      some { tPal with palgate_members := [] } ∧
    get_tenant { tenants := [createRow tPal], history := [] } 11 1 ≠ some tPal := by
  refine ⟨by rfl, by rfl, ?_⟩
  intro hcon
  have h2 : get_tenant { tenants := [createRow tPal], history := [] } 11 1 =
      some { tPal with palgate_members := [] } := by rfl
  rw [h2] at hcon
  have := congrArg Tenant.palgate_members (Option.some.inj hcon)
  simp [tPal] at this

/-- Closed instantiation of `create_then_get_roundtrip`: creating Jane
Smith at (11, 1) in the empty database and reading her back returns the
input record. -/
theorem create_then_get_roundtrip_witness :
    create_tenant cfgDemo dbEmpty tJane =
      .ok (tJane, { dbEmpty with tenants := dbEmpty.tenants ++ [createRow tJane] }) ∧
    get_tenant { dbEmpty with tenants := dbEmpty.tenants ++ [createRow tJane] }
      tJane.building_number tJane.apartment_number = some tJane := by
  exact create_then_get_roundtrip cfgDemo dbEmpty tJane (by decide) (by decide)
    (by decide) (by intro r hr; cases hr) (by rfl) (by rfl)
    (fun _ => rfl) (by intro h; cases h)

/-! ### Claim C2: duplicate create conflicts -/

/-- C2 (amended): a first `create_tenant` on a free apartment appends
exactly one row; a second call for the same identity fails with the
conflict-message `ValidationError` — the same exception class the
validator's invalid-input failures use, there is no distinct `Conflict`
class — and produces no new database state. -/
theorem create_tenant_conflict_spec (cfg : Config) (db : Db) (t : Tenant)
    (hbmem : t.building_number ∈ cfg.buildings.map (fun c => c.number))
    (ha1 : 1 ≤ t.apartment_number)
    (ha2 : t.apartment_number ≤ get_apartment_count cfg t.building_number)
    (hnoactive : ∀ r ∈ db.tenants,
      matchesActive t.building_number t.apartment_number r = false)
    (hactive : t.move_out_date = none) :
    ∃ db1, create_tenant cfg db t = .ok (t, db1) ∧
      db1.tenants.length = db.tenants.length + 1 ∧
      create_tenant cfg db1 t =
        .error (.validationError "Active tenant already exists for this apartment") := by
  refine ⟨{ db with tenants := db.tenants ++ [createRow t] },
    create_tenant_ok cfg db t hbmem ha1 ha2 hnoactive, by simp, ?_⟩
  have hbn : validate_building_number cfg t.building_number = .ok true := by
    unfold validate_building_number
    rw [if_pos ((mem_get_valid_building_numbers cfg t.building_number).mpr hbmem)]
  have hvala : validate_apartment_number cfg t.building_number t.apartment_number
      = .ok true := by
    unfold validate_apartment_number
    rw [hbn]
    show (if t.apartment_number < 1 ∨
        t.apartment_number > get_apartment_count cfg t.building_number then _ else _)
      = _
    rw [if_neg (by omega)]
  have hany : (db.tenants ++ [createRow t]).any
      (matchesActive t.building_number t.apartment_number) = true := by
    rw [List.any_append]
    simp [matchesActive_createRow t hactive]
  unfold create_tenant
  rw [hbn, hvala]
  show (if (db.tenants ++ [createRow t]).any
      (matchesActive t.building_number t.apartment_number) = true then _ else _) = _
  rw [hany]
  simp

/-- C2 counterexample to the error-category part of the claim: the second
`create_tenant` raises `ValidationError` — the very class invalid-input
failures use (compare the invalid-building failure) — not a distinct
`Conflict` class (none exists in the code's exception hierarchy). -/
theorem create_tenant_conflict_counterexample :
    create_tenant cfgDemo { tenants := [createRow tJane], history := [] } tJane
      = .error (.validationError "Active tenant already exists for this apartment") ∧
    validate_building_number cfgDemo 99
      = .error (.validationError "Invalid building number: 99") := by
  exact ⟨by rfl, by rfl⟩

/-- Closed instantiation of `create_tenant_conflict_spec` at Jane Smith in
the empty demonstration database. -/
theorem create_tenant_conflict_spec_witness :
    ∃ db1, create_tenant cfgDemo dbEmpty tJane = .ok (tJane, db1) ∧
      db1.tenants.length = dbEmpty.tenants.length + 1 ∧
      create_tenant cfgDemo db1 tJane =
        .error (.validationError "Active tenant already exists for this apartment") :=
  create_tenant_conflict_spec cfgDemo dbEmpty tJane (by decide) (by decide)
    (by decide) (by intro r hr; cases hr) (by rfl)

/-! ### Claim C3: ending a tenancy -/

/-- A list whose `countP` is one splits around its unique satisfying
element. -/
theorem countP_one_split (p : α → Bool) (l : List α) (h : l.countP p = 1) :
    ∃ l1 r l2, l = l1 ++ r :: l2 ∧ p r = true ∧
      (∀ x ∈ l1, p x = false) ∧ (∀ x ∈ l2, p x = false) := by
  induction l with
  | nil => simp at h
  | cons x xs ih =>
      rw [List.countP_cons] at h
      by_cases hx : p x = true
      · have hzero : xs.countP p = 0 := by
          rw [hx] at h
          simp only [if_pos] at h
          omega
        refine ⟨[], x, xs, rfl, hx, ?_, ?_⟩
        · intro y hy; cases hy
        · intro y hy
          have := (List.countP_eq_zero.mp hzero) y hy
          simpa using this
      · have hx' : p x = false := by simpa using hx
        have h' : xs.countP p = 1 := by
          rw [hx'] at h
          rw [if_neg (by simp)] at h
          omega
        rcases ih h' with ⟨l1, r, l2, heq, hr, h1, h2⟩
        refine ⟨x :: l1, r, l2, by simp [heq], hr, ?_, h2⟩
        intro y hy
        rcases List.mem_cons.mp hy with rfl | hy'
        · exact hx'
        · exact h1 y hy'

/-- `endRows` on a sheet with no matching active row finds nothing. -/
theorem endRows_none (b a : Int) (d : Date) (l : List TenantRow)
    (h : ∀ x ∈ l, matchesActive b a x = false) :
    endRows b a d l = none := by
  induction l with
  | nil => rfl
  | cons x xs ih =>
      have hx := h x (List.mem_cons_self x xs)
      simp [endRows, hx, ih (fun y hy => h y (List.mem_cons_of_mem x hy))]

/-- `endRows` stamps the first matching active row and snapshots it. -/
theorem endRows_split (b a : Int) (d : Date) (l1 : List TenantRow)
    (r : TenantRow) (l2 : List TenantRow)
    (h1 : ∀ x ∈ l1, matchesActive b a x = false)
    (hr : matchesActive b a r = true) :
    endRows b a d (l1 ++ r :: l2) =
      some (l1 ++ { r with c_move_out := some d } :: l2,
        historyFromRow { r with c_move_out := some d } d) := by
  induction l1 with
  | nil => simp [endRows, hr]
  | cons x xs ih =>
      have hx := h1 x (List.mem_cons_self x xs)
      simp [endRows, hx, ih (fun y hy => h1 y (List.mem_cons_of_mem x hy))]

/-- C3: with exactly one active row at `(b, a)`, `end_tenancy(b, a, d)`
succeeds, the returned history entry carries `move_out_date = d`, a
subsequent `get_tenant(b, a)` returns `none` (not an error), and the
apartment history afterwards is, up to the descending re-sort, the old
history plus exactly that one new entry (so its length grows by one);
without an active row, `end_tenancy` fails with `NotFoundError`. -/
theorem end_tenancy_spec (db : Db) (b a : Int) (d : Date) :
    (db.tenants.countP (matchesActive b a) = 1 →
      ∃ h db1, end_tenancy db b a d = .ok (h, db1) ∧
        h.move_out_date = d ∧
        get_tenant db1 b a = none ∧
        (get_apartment_history db1 b a).Perm (h :: get_apartment_history db b a) ∧
        (get_apartment_history db1 b a).length
          = (get_apartment_history db b a).length + 1) ∧
    ((∀ x ∈ db.tenants, matchesActive b a x = false) →
      end_tenancy db b a d = .error (.notFoundError "Active tenant not found")) := by
  constructor
  · intro hcount
    rcases countP_one_split _ _ hcount with ⟨l1, r, l2, heq, hr, h1, h2⟩
    have hr' := hr
    simp only [matchesActive, Bool.and_eq_true, beq_iff_eq,
      Option.isNone_iff_eq_none] at hr'
    obtain ⟨⟨hb, ha⟩, hmo⟩ := hr'
    set stamped : TenantRow := { r with c_move_out := some d } with hstamped
    set h : HistoryRow := historyFromRow stamped d with hh
    set db1 : Db := ⟨l1 ++ stamped :: l2, db.history ++ [h]⟩ with hdb1
    have hend : end_tenancy db b a d = .ok (h, db1) := by
      unfold end_tenancy
      rw [heq, endRows_split b a d l1 r l2 h1 hr]
    have hmatch : historyMatches b a h = true := by
      simp [historyMatches, hh, hstamped, historyFromRow, hb, ha]
    have hfilter : (db.history ++ [h]).filter (historyMatches b a)
        = db.history.filter (historyMatches b a) ++ [h] := by
      rw [List.filter_append]
      simp [hmatch]
    have hperm : (get_apartment_history db1 b a).Perm
        (h :: get_apartment_history db b a) := by
      have hp1 : (get_apartment_history db1 b a).Perm
          (db.history.filter (historyMatches b a) ++ [h]) := by
        have hhist : db1.history = db.history ++ [h] := rfl
        unfold get_apartment_history
        rw [hhist, hfilter]
        exact sortDescBy_perm _ _
      have hp2 : (db.history.filter (historyMatches b a) ++ [h]).Perm
          (h :: get_apartment_history db b a) := by
        refine (List.perm_append_singleton h _).trans ?_
        exact ((sortDescBy_perm (fun x => x.move_in_date)
          (db.history.filter (historyMatches b a))).symm.cons h)
      exact hp1.trans hp2
    refine ⟨h, db1, hend, rfl, ?_, hperm, by simpa using hperm.length_eq⟩
    have htens : db1.tenants = l1 ++ stamped :: l2 := rfl
    unfold get_tenant
    rw [htens, find?_eq_none_of_all_false]
    · rfl
    · intro x hx
      rcases List.mem_append.mp hx with hx1 | hx2
      · exact h1 x hx1
      · rcases List.mem_cons.mp hx2 with rfl | hx3
        · simp [matchesActive, hstamped]
        · exact h2 x hx3
  · intro hnone
    unfold end_tenancy
    rw [endRows_none b a d db.tenants hnone]

/-- Closed instantiation of `end_tenancy_spec`: ending Jane Smith's
tenancy in a one-row database, and the not-found failure on the empty
database. -/
theorem end_tenancy_spec_witness :
    (∃ h db1, end_tenancy { tenants := [createRow tJane], history := [] } 11 1 20805
        = .ok (h, db1) ∧
      h.move_out_date = 20805 ∧
      get_tenant db1 11 1 = none ∧
      (get_apartment_history db1 11 1).Perm
        (h :: get_apartment_history { tenants := [createRow tJane], history := [] } 11 1) ∧
      (get_apartment_history db1 11 1).length
        = (get_apartment_history
            { tenants := [createRow tJane], history := [] } 11 1).length + 1) ∧
    end_tenancy dbEmpty 11 1 20805
      = .error (.notFoundError "Active tenant not found") := by
  constructor
  · exact (end_tenancy_spec { tenants := [createRow tJane], history := [] }
      11 1 20805).1 (by decide)
  · exact (end_tenancy_spec dbEmpty 11 1 20805).2 (by intro x hx; cases hx)

/-! ### Claim C7: update in place -/

/-- `updateRows` on a sheet with no matching active row finds nothing. -/
theorem updateRows_none (t : Tenant) (l : List TenantRow)
    (h : ∀ x ∈ l, matchesActive t.building_number t.apartment_number x = false) :
    updateRows t l = none := by
  induction l with
  | nil => rfl
  | cons x xs ih =>
      have hx := h x (List.mem_cons_self x xs)
      simp [updateRows, hx, ih (fun y hy => h y (List.mem_cons_of_mem x hy))]

/-- `updateRows` rewrites the first matching active row in place. -/
theorem updateRows_split (t : Tenant) (l1 : List TenantRow) (r : TenantRow)
    (l2 : List TenantRow)
    (h1 : ∀ x ∈ l1, matchesActive t.building_number t.apartment_number x = false)
    (hr : matchesActive t.building_number t.apartment_number r = true) :
    updateRows t (l1 ++ r :: l2) = some (l1 ++ writeTenantRow r t :: l2) := by
  induction l1 with
  | nil => simp [updateRows, hr]
  | cons x xs ih =>
      have hx := h1 x (List.mem_cons_self x xs)
      simp [updateRows, hx, ih (fun y hy => h1 y (List.mem_cons_of_mem x hy))]

/-- C7 (amended): `update_tenant` fails with `NotFoundError` when no
active row matches the tenant's identity; otherwise it rewrites exactly
the first (by the store invariant, unique) matching active row, leaving
every other row of the sheet unchanged, and a subsequent `get_tenant`
returns exactly `t` — provided `t` is active, has no PalGate members and
has `owner_info` exactly when it is a renter.  The rewrite sets every
column from `t` except the three owner columns, which keep their previous
cell values when `t.owner_info` is absent (see the counterexample). -/
theorem update_tenant_spec (db : Db) (t : Tenant) :
    ((∀ x ∈ db.tenants, matchesActive t.building_number t.apartment_number x = false) →
      update_tenant db t = .error (.notFoundError "Tenant not found")) ∧
    (∀ l1 r l2, db.tenants = l1 ++ r :: l2 →
      (∀ x ∈ l1, matchesActive t.building_number t.apartment_number x = false) →
      matchesActive t.building_number t.apartment_number r = true →
      update_tenant db t =
        .ok (t, { db with tenants := l1 ++ writeTenantRow r t :: l2 }) ∧
      ((∀ x ∈ l2, matchesActive t.building_number t.apartment_number x = false) →
        t.move_out_date = none → t.palgate_members = [] →
        (t.is_owner = true → t.owner_info = none) →
        (t.is_owner = false → (t.owner_info).isSome = true) →
        get_tenant { db with tenants := l1 ++ writeTenantRow r t :: l2 }
          t.building_number t.apartment_number = some t)) := by
  constructor
  · intro hall
    unfold update_tenant
    rw [updateRows_none t db.tenants hall]
  · intro l1 r l2 heq hl1 hr
    constructor
    · unfold update_tenant
      rw [heq, updateRows_split t l1 r l2 hl1 hr]
    · intro hl2 hmo hp how hro
      have hmatch : matchesActive t.building_number t.apartment_number
          (writeTenantRow r t) = true := by
        simp [matchesActive, writeTenantRow, hmo]
      have htens : ({ db with tenants := l1 ++ writeTenantRow r t :: l2 } : Db).tenants
          = l1 ++ writeTenantRow r t :: l2 := rfl
      unfold get_tenant
      rw [htens, find?_append_of_all_false _ _ _ hl1]
      simp only [List.find?_cons, hmatch]
      rw [show Option.map rowToTenant (some (writeTenantRow r t))
          = some (rowToTenant (writeTenantRow r t)) from rfl]
      exact congrArg some (rowToTenant_writeTenantRow r t hp how hro)

/-- The previous renter's row at (11, 1): active, with owner contact
values in the owner columns. -/
def rowStale : TenantRow :=
  { c_building := 11, c_apartment := 1, c_first := "Prev", c_last := "Renter",
    c_phone := "0507777777", c_storage := none, c_slot1 := none, c_slot2 := none,
    c_is_owner := false, c_owner_first := some "Old", c_owner_last := some "Owner",
    c_owner_phone := some "0508888888", c_whatsapp := [], c_parking := [],
    c_move_in := 20000, c_move_out := none, c_palgate := false,
    c_whatsapp_group := false }

/-- C7 counterexample to "overwrites all fields in place with t's values":
updating the renter's row with owner Jane (who has no `owner_info`) leaves
the previous record's owner columns in the row — the fresh write of the
same tenant stores an empty owner column instead — so stale field values
survive in the sheet. -/
theorem update_tenant_counterexample :
    update_tenant { tenants := [rowStale], history := [] } tJane =
      .ok (tJane, { tenants := [writeTenantRow rowStale tJane], history := [] }) ∧
    (writeTenantRow rowStale tJane).c_owner_first = some "Old" ∧
    (createRow tJane).c_owner_first = none := ⟨rfl, rfl, rfl⟩

/-- Closed instantiation of `update_tenant_spec`: renaming Jane to Janet
in a one-row database updates the row, reads back as Janet, and updating
in the empty database is not found. -/
theorem update_tenant_spec_witness :
    update_tenant { tenants := [createRow tJane], history := [] }
        { tJane with first_name := "Janet" } =
      .ok ({ tJane with first_name := "Janet" },
        { tenants := [writeTenantRow (createRow tJane)
          { tJane with first_name := "Janet" }], history := [] }) ∧
    get_tenant { tenants := [writeTenantRow (createRow tJane)
        { tJane with first_name := "Janet" }], history := [] } 11 1
      = some { tJane with first_name := "Janet" } ∧
    update_tenant dbEmpty tJane = .error (.notFoundError "Tenant not found") := by
  have h := (update_tenant_spec { tenants := [createRow tJane], history := [] }
    { tJane with first_name := "Janet" }).2 [] (createRow tJane) [] rfl
    (by intro x hx; cases hx) (by decide)
  exact ⟨h.1, h.2 (by intro x hx; cases hx) rfl rfl (fun _ => rfl)
      (by intro hcon; cases hcon),
    (update_tenant_spec dbEmpty tJane).1 (by intro x hx; cases hx)⟩

/-! ### Claim C9: renters must carry owner info -/

/-- C9 (amended): a tenant-data dictionary accepted by
`validate_tenant_data` with `is_owner` false carries an `owner_info`
dictionary with truthy first and last names, and a `Tenant` model accepted
by construction with `is_owner` false carries an `owner_info` with
non-empty names and a phone of 9 to 20 characters; neither path validates
the owner phone's content (see the counterexample). -/
theorem renter_owner_info_spec (cfg : Config) (d : TenantData) (t : Tenant) :
    ((validate_tenant_data cfg d).1 = true → d.is_owner = false →
      ∃ o, d.owner_info = some o ∧ truthyStr o.first_name = true ∧
        truthyStr o.last_name = true) ∧
    (tenantAccepted cfg t = true → t.is_owner = false →
      ∃ o, t.owner_info = some o ∧ 1 ≤ o.first_name.length ∧
        1 ≤ o.last_name.length ∧ 9 ≤ o.phone.length ∧ o.phone.length ≤ 20) := by
  constructor
  · intro hv hro
    have herr : (vtdBuildingErrors cfg d ++ vtdApartmentErrors cfg d
        ++ vtdPhoneErrors cfg d ++ vtdFirstNameErrors d ++ vtdLastNameErrors d
        ++ vtdOwnerErrors d) = [] := by
      have hlen : ((vtdBuildingErrors cfg d ++ vtdApartmentErrors cfg d
          ++ vtdPhoneErrors cfg d ++ vtdFirstNameErrors d ++ vtdLastNameErrors d
          ++ vtdOwnerErrors d).length == 0) = true := hv
      simpa using hlen
    have h6 : vtdOwnerErrors d = [] := by
      simp only [List.append_eq_nil] at herr
      exact herr.2
    unfold vtdOwnerErrors at h6
    rw [hro] at h6
    rw [if_neg (by simp)] at h6
    cases hoi : d.owner_info with
    | none => rw [hoi] at h6; simp at h6
    | some o =>
        rw [hoi] at h6
        have h6' : (if ¬ truthyStr o.first_name = true
            then ["Owner first name required"]
            else if ¬ truthyStr o.last_name = true
            then ["Owner last name required"] else []) = [] := h6
        by_cases htf : truthyStr o.first_name = true
        · rw [if_neg (by simp [htf])] at h6'
          by_cases htl : truthyStr o.last_name = true
          · exact ⟨o, rfl, htf, htl⟩
          · rw [if_pos (by simpa using htl)] at h6'
            cases h6'
        · rw [if_pos (by simpa using htf)] at h6'
          cases h6'
  · intro hacc hro
    simp only [tenantAccepted, Bool.and_eq_true] at hacc
    obtain ⟨⟨⟨⟨⟨⟨⟨⟨h1, h2⟩, h3⟩, h4⟩, h5⟩, h6⟩, h7⟩, h8⟩, h9⟩ := hacc
    rw [hro] at h8
    have hsome : (t.owner_info).isSome = true := by simpa using h8
    rcases Option.isSome_iff_exists.mp hsome with ⟨o, ho⟩
    rw [ho] at h4
    have h4' : ownerInfoAccepted o = true := h4
    simp only [ownerInfoAccepted, validName, validPhoneField,
      Bool.and_eq_true, decide_eq_true_eq] at h4'
    exact ⟨o, ho, h4'.1.1.1, h4'.1.2.1, h4'.2.1, h4'.2.2⟩

/-- A renter tenant-data dictionary whose owner phone is the single
character `"x"`. -/
def dRenterBadOwnerPhone : TenantData :=
  { building_number := 11, apartment_number := 1, phone := some "0501234567",
    first_name := "Jane", last_name := "Smith", is_owner := false,
    owner_info := some ⟨some "Ona", some "Wner", some "x"⟩ }

/-- A renter `Tenant` whose owner phone is nine letters (length-valid for
the model field, but not a valid phone). -/
def tRenterBadOwnerPhone : Tenant :=
  { tJane with is_owner := false, owner_info := some ⟨"Ona", "Wner", "abcdefghi"⟩ }

/-- C9 counterexample to "with a valid phone number … any renter record
with an invalid owner phone is rejected": both acceptance paths accept a
renter whose owner phone fails phone validation — `validate_tenant_data`
never examines the owner phone, and the model only constrains its
length. -/
theorem renter_owner_info_counterexample :
    (validate_tenant_data cfgDemo dRenterBadOwnerPhone).1 = true ∧
    validate_phone_number cfgDemo "x" =
      .error (.validationError "Phone number must contain only digits") ∧
    tenantAccepted cfgDemo tRenterBadOwnerPhone = true ∧
    validate_phone_number cfgDemo "abcdefghi" =
      .error (.validationError "Phone number must contain only digits") := by
  exact ⟨by decide, by rfl, by decide, by rfl⟩

/-- Closed instantiation of `renter_owner_info_spec`: a fully valid renter
dictionary and model are accepted and indeed carry the owner info. -/
theorem renter_owner_info_spec_witness :
    (∃ o, (dRenterBadOwnerPhone.owner_info) = some o ∧
      truthyStr o.first_name = true ∧ truthyStr o.last_name = true) ∧
    (∃ o, (tRenterBadOwnerPhone.owner_info) = some o ∧
      1 ≤ o.first_name.length ∧ 1 ≤ o.last_name.length ∧
      9 ≤ o.phone.length ∧ o.phone.length ≤ 20) := by
  constructor
  · exact (renter_owner_info_spec cfgDemo dRenterBadOwnerPhone tJane).1
      (by decide) (by rfl)
  · exact (renter_owner_info_spec cfgDemo dRenterBadOwnerPhone
      tRenterBadOwnerPhone).2 (by decide) (by rfl)

end TenantMgmt
